import Mathlib

/-!
Verification development for the coros_data_extractor repository.

The Python sources are shallowly embedded below:

* `config.py` becomes the string/numeric constants;
* `model.py` becomes the `AwareDatetime`, `Summary`, `Frequencies`, `Lap`
  and `TrainActivity` structures together with the timestamp decoder
  `convert_timestamp_to_datetime`;
* `data/api_model.py` becomes the `LapType` inductive;
* `data/__init__.py` becomes the lister (`get_activities_inner`), the
  detail-fetch retry loop (`get_raw_activity_data`), the normalizers
  (`get_summary_data`, `get_activity_data`, `get_laps_data`) and the
  extraction orchestrator (`extract_data_inner`).

HTTP transport is abstracted as a pure function from requests to
responses; exceptions become `Except`; Python floats become exact
rationals.
-/

namespace Coros

/-! ## Constants (config.py, data/constants.py, data/__init__.py) -/

def BASE_URL : String := "https://teamapi.coros.com"

def ACTIVITIES_URL : String := "https://teamapi.coros.com/activity/query"

def ACTIVITY_DETAILS_URL : String := "https://teamapi.coros.com/activity/detail/query"

/-- Constant `ACTIVITY_PAGINATION_LIMIT = 200` from config.py. -/
def ACTIVITY_PAGINATION_LIMIT : Nat := 200

/-- Constant `DEFAULT_ACTIVITY_LIMIT = 200` from config.py: the default of the
`limit` parameter of `get_activities`. -/
def DEFAULT_ACTIVITY_LIMIT : Nat := 200

/-- Constant `MAX_TRIES = 3`, module-level in data/__init__.py. -/
def MAX_TRIES : Nat := 3

/-! ## model.py: timestamps

A Python aware `datetime` is an instant (seconds since the Unix epoch,
kept exact as a rational) tagged with a display time zone.  `astimezone`
changes only the tag, never the instant. -/

structure AwareDatetime where
  instantSeconds : ℚ
  zone : String
deriving DecidableEq

/-- The source expression `datetime(1970, 1, 1, tzinfo=timezone.utc)`. -/
def epochUTC : AwareDatetime := ⟨0, "UTC"⟩

/-- Python `dt + timedelta(seconds=s)`: shift the instant, keep the zone. -/
def addSeconds (dt : AwareDatetime) (s : ℚ) : AwareDatetime :=
  ⟨dt.instantSeconds + s, dt.zone⟩

/-- Python `dt.astimezone(tz)`: same instant, new display zone. -/
def astimezone (dt : AwareDatetime) (z : String) : AwareDatetime :=
  ⟨dt.instantSeconds, z⟩

/-- The instant an aware datetime denotes, before/regardless of zone display. -/
def AwareDatetime.instant (dt : AwareDatetime) : ℚ := dt.instantSeconds

/-- Validator `Summary.convert_timestamp_to_datetime` / `Lap.convert_timestamp_to_datetime`
from model.py:
`(datetime(1970,1,1,tzinfo=utc) + timedelta(seconds=value/100)).astimezone(pytz.timezone("America/New_York"))`.
Python's `value / 100` true division is modelled exactly in ℚ. -/
def convert_timestamp_to_datetime (value : Int) : AwareDatetime :=
  astimezone (addSeconds epochUTC ((value : ℚ) / 100)) "America/New_York"

/-! ## data/api_model.py -/

/-- Enum `LapType`: `BIKE_RIDE = 1`, `RUNNING = 2`. -/
inductive LapType where
  | BIKE_RIDE
  | RUNNING
deriving DecidableEq

/-- The integer code of a lap type (the Enum member's `value`). -/
def LapType.code : LapType → Nat
  | .BIKE_RIDE => 1
  | .RUNNING => 2

/-! ## model.py: Summary

`Summary` is a pydantic model: all declared fields are required, unknown
fields are ignored, and the two timestamp fields run through
`convert_timestamp_to_datetime` before validation.  The raw input
(`RawSummary`) carries each declared field as an `Option`; `none` means
the key is absent from the raw JSON mapping. -/

structure Summary where
  adjustedPace : Int
  aerobicEffect : ℚ
  aerobicEffectState : Int
  anaerobicEffect : ℚ
  anaerobicEffectState : Int
  avgCadence : Int
  avgHr : Int
  avgMoveSpeed : Int
  avgPace : Int
  avgRunningEf : Int
  avgSpeed : ℚ
  avgStepLen : Int
  calories : Int
  currentVo2Max : Int
  deviceSportMode : Int
  distance : Int
  endTimestamp : AwareDatetime
  maxCadence : Int
  maxHr : Int
  maxSpeed : Int
  name : String
  sportMode : Int
  sportType : Int
  startTimestamp : AwareDatetime
  totalTime : Int
  trainType : Int
  trainingLoad : Int
  workoutTime : Int
deriving DecidableEq

structure RawSummary where
  adjustedPace : Option Int
  aerobicEffect : Option ℚ
  aerobicEffectState : Option Int
  anaerobicEffect : Option ℚ
  anaerobicEffectState : Option Int
  avgCadence : Option Int
  avgHr : Option Int
  avgMoveSpeed : Option Int
  avgPace : Option Int
  avgRunningEf : Option Int
  avgSpeed : Option ℚ
  avgStepLen : Option Int
  calories : Option Int
  currentVo2Max : Option Int
  deviceSportMode : Option Int
  distance : Option Int
  endTimestamp : Option Int
  maxCadence : Option Int
  maxHr : Option Int
  maxSpeed : Option Int
  name : Option String
  sportMode : Option Int
  sportType : Option Int
  startTimestamp : Option Int
  totalTime : Option Int
  trainType : Option Int
  trainingLoad : Option Int
  workoutTime : Option Int
deriving DecidableEq

/-! ## Python exceptions used by the embedded code -/

/-- Python exceptions distinguished by the embedded code.  `keyError` is
raised by `d[k]` on a missing key; `validationError` by a pydantic model
constructor on a missing required field; `zeroDivisionError` by `x / 0`. -/
inductive PyErr where
  | keyError (key : String)
  | validationError
  | zeroDivisionError
deriving DecidableEq

/-- Pydantic requirement: a declared field must be present in the raw
input, otherwise model construction fails with a `ValidationError`. -/
def requireField {α : Type} : Option α → Except PyErr α
  | some a => Except.ok a
  | none => Except.error PyErr.validationError

/-- Python `d[k]` on an optional-valued envelope entry: a missing key
raises `KeyError(k)`. -/
def keyReq {α : Type} (key : String) : Option α → Except PyErr α
  | some a => Except.ok a
  | none => Except.error (PyErr.keyError key)

/-- Method `CorosDataExtractor.get_summary_data`: `Summary(**data)`, pydantic
construction.  Every declared field must be present; the two timestamps
are decoded with `convert_timestamp_to_datetime`. -/
def get_summary_data (d : RawSummary) : Except PyErr Summary := do
  let adjustedPace ← requireField d.adjustedPace
  let aerobicEffect ← requireField d.aerobicEffect
  let aerobicEffectState ← requireField d.aerobicEffectState
  let anaerobicEffect ← requireField d.anaerobicEffect
  let anaerobicEffectState ← requireField d.anaerobicEffectState
  let avgCadence ← requireField d.avgCadence
  let avgHr ← requireField d.avgHr
  let avgMoveSpeed ← requireField d.avgMoveSpeed
  let avgPace ← requireField d.avgPace
  let avgRunningEf ← requireField d.avgRunningEf
  let avgSpeed ← requireField d.avgSpeed
  let avgStepLen ← requireField d.avgStepLen
  let calories ← requireField d.calories
  let currentVo2Max ← requireField d.currentVo2Max
  let deviceSportMode ← requireField d.deviceSportMode
  let distance ← requireField d.distance
  let endTimestamp ← requireField d.endTimestamp
  let maxCadence ← requireField d.maxCadence
  let maxHr ← requireField d.maxHr
  let maxSpeed ← requireField d.maxSpeed
  let name ← requireField d.name
  let sportMode ← requireField d.sportMode
  let sportType ← requireField d.sportType
  let startTimestamp ← requireField d.startTimestamp
  let totalTime ← requireField d.totalTime
  let trainType ← requireField d.trainType
  let trainingLoad ← requireField d.trainingLoad
  let workoutTime ← requireField d.workoutTime
  pure ⟨adjustedPace, aerobicEffect, aerobicEffectState, anaerobicEffect,
    anaerobicEffectState, avgCadence, avgHr, avgMoveSpeed, avgPace,
    avgRunningEf, avgSpeed, avgStepLen, calories, currentVo2Max,
    deviceSportMode, distance, convert_timestamp_to_datetime endTimestamp,
    maxCadence, maxHr, maxSpeed, name, sportMode, sportType,
    convert_timestamp_to_datetime startTimestamp, totalTime, trainType,
    trainingLoad, workoutTime⟩

/-! ## model.py: Lap

`Lap` is a pydantic model like `Summary`.  The claims under verification
exercise only the filtering/flattening of lap groups, so the raw lap
items are taken with all declared fields present and well typed; the
constructor then only decodes the two timestamps. -/

structure Lap where
  avgCadence : Int
  avgHr : Int
  avgMoveSpeed : Int
  avgPace : ℚ
  avgPower : Int
  avgSpeedV2 : ℚ
  avgStrideLength : Int
  calories : Int
  distance : Int
  endTimestamp : AwareDatetime
  lapIndex : Int
  rowIndex : Int
  setIndex : Int
  startTimestamp : AwareDatetime
  totalDistance : Int
deriving DecidableEq

structure RawLap where
  avgCadence : Int
  avgHr : Int
  avgMoveSpeed : Int
  avgPace : ℚ
  avgPower : Int
  avgSpeedV2 : ℚ
  avgStrideLength : Int
  calories : Int
  distance : Int
  endTimestamp : Int
  lapIndex : Int
  rowIndex : Int
  setIndex : Int
  startTimestamp : Int
  totalDistance : Int
deriving DecidableEq

/-- Constructor call `Lap(**lap)`: pydantic construction of a `Lap`, with the
`startTimestamp`/`endTimestamp` before-validators applied. -/
def Lap.ofRaw (r : RawLap) : Lap :=
  ⟨r.avgCadence, r.avgHr, r.avgMoveSpeed, r.avgPace, r.avgPower,
    r.avgSpeedV2, r.avgStrideLength, r.calories, r.distance,
    convert_timestamp_to_datetime r.endTimestamp, r.lapIndex, r.rowIndex,
    r.setIndex, convert_timestamp_to_datetime r.startTimestamp,
    r.totalDistance⟩

/-- One entry of the raw `lapList`: a group with a `type` tag and a
nested `lapItemList`. -/
structure LapGroup where
  type : LapType
  lapItemList : List RawLap
deriving DecidableEq

/-- Method `CorosDataExtractor.get_laps_data` from data/__init__.py:

    laps = []
    for item in data:
        if item["type"] == LapType.RUNNING:
            laps.extend(Lap(**lap) for lap in item["lapItemList"])
    return laps
-/
def get_laps_data (data : List LapGroup) : List Lap :=
  data.foldl
    (fun laps item =>
      if item.type = LapType.RUNNING then
        laps ++ item.lapItemList.map Lap.ofRaw
      else laps)
    []

/-! ## model.py: Frequencies; data/__init__.py: get_activity_data -/

structure Frequencies where
  cadence : List Int
  distance : List Int
  heart : List Int
  heartLevel : List Int
  timestamp : List Int
deriving DecidableEq

/-- Default `Frequencies()`: all five series empty. -/
def Frequencies.empty : Frequencies := ⟨[], [], [], [], []⟩

/-- One raw sample of the `frequencyList`; a `none` field means the key
is absent from the sample's JSON mapping, so `item.get(key, 0)` falls
back to 0. -/
structure RawSample where
  cadence : Option Int
  distance : Option Int
  heart : Option Int
  heartLevel : Option Int
  timestamp : Option Int
deriving DecidableEq

/-- Method `CorosDataExtractor.get_activity_data` from data/__init__.py:

    freq = Frequencies()
    for item in data:
        freq.cadence.append(item.get("cadence", 0))
        ... (same for distance, heart, heartLevel, timestamp)
    return freq
-/
def get_activity_data (data : List RawSample) : Frequencies :=
  data.foldl
    (fun freq item =>
      ⟨freq.cadence ++ [item.cadence.getD 0],
        freq.distance ++ [item.distance.getD 0],
        freq.heart ++ [item.heart.getD 0],
        freq.heartLevel ++ [item.heartLevel.getD 0],
        freq.timestamp ++ [item.timestamp.getD 0]⟩)
    Frequencies.empty

/-! ## Detail payloads (the JSON envelope of /activity/detail/query) -/

/-- The `data` envelope of a detail response.  A `none` field models the
key being absent (or JSON null, for `summary`, which
`valid_raw_activity_data` treats the same way). -/
structure RawDetailData where
  summary : Option RawSummary
  frequencyList : Option (List RawSample)
  lapList : Option (List LapGroup)
deriving DecidableEq

/-- A whole detail response body (`resp.json()`). -/
structure DetailPayload where
  data : Option RawDetailData
deriving DecidableEq

/-- Predicate `CorosDataExtractor.valid_raw_activity_data`:
`resp_json.get("data", {}).get("summary") is not None`. -/
def valid_raw_activity_data (resp_json : DetailPayload) : Bool :=
  (resp_json.data.bind (fun d => d.summary)).isSome

/-- model.py `TrainActivity`: the normalized aggregate. -/
structure TrainActivity where
  summary : Summary
  data : Frequencies
  laps : List Lap
deriving DecidableEq

/-- The body of the per-activity `try` block of `_extract_data_inner`,
in Python evaluation order:

    data_wrapped = activity_data["data"]
    training_activity = TrainActivity(
        summary=CorosDataExtractor.get_summary_data(data_wrapped["summary"]),
        data=CorosDataExtractor.get_activity_data(data_wrapped["frequencyList"]),
        laps=CorosDataExtractor.get_laps_data(data_wrapped["lapList"]),
    )

A missing envelope key raises `KeyError`; a missing required summary
field makes `get_summary_data` raise a pydantic `ValidationError`. -/
def normalize_activity (activity_data : DetailPayload) :
    Except PyErr TrainActivity := do
  let data_wrapped ← keyReq "data" activity_data.data
  let rawSummary ← keyReq "summary" data_wrapped.summary
  let s ← get_summary_data rawSummary
  let f := get_activity_data (← keyReq "frequencyList" data_wrapped.frequencyList)
  let l := get_laps_data (← keyReq "lapList" data_wrapped.lapList)
  pure ⟨s, f, l⟩

/-! ## Activity lister (`_get_activities_inner` in data/__init__.py)

The HTTP transport is abstracted as a pure `server : Request → Response ε`
(`ε` is the type of one `dataList` entry).  The function returns the
ordered list of requests it issued together with the concatenated
`dataList`, or the Python exception it raised. -/

/-- The query parameters of one GET to `ACTIVITIES_URL`:
`{modeList, pageNumber, size}`. -/
structure Request where
  modeList : String
  pageNumber : Nat
  size : Nat
deriving DecidableEq

/-- The `data` envelope of a listing response: `{count, dataList}`. -/
structure Response (ε : Type) where
  count : Nat
  dataList : List ε

/-- Python `math.ceil(a / b)` on nonneg integers with `b > 0`; the raw
arithmetic `(a + b - 1) / b` in ℕ (proved equal to the rational ceiling
in `ceil_div_eq_rat_ceil` below). -/
def ceil_div (a b : Nat) : Nat := (a + b - 1) / b

/-- The shared tail of `_get_activities_inner` after `limit` and
`total_activities` are fixed:

    payload["size"] = min(limit, ACTIVITY_PAGINATION_LIMIT)
    datalist = []
    num_pages = math.ceil(total_activities / limit)
    for page_number in range(1, num_pages + 1):
        ... GET, datalist.extend(res["data"]["dataList"])
    return datalist

`limit = 0` makes `total_activities / limit` raise `ZeroDivisionError`
before any page request.  `trace0` holds the requests already issued
(the discovery probe, when there was one). -/
def pages_phase {ε : Type} (server : Request → Response ε)
    (mode_list : String) (limit total_activities : Nat)
    (trace0 : List Request) : Except PyErr (List Request × List ε) :=
  if limit = 0 then Except.error PyErr.zeroDivisionError
  else
    let size := min limit ACTIVITY_PAGINATION_LIMIT
    let num_pages := ceil_div total_activities limit
    let reqs := (List.range num_pages).map
      (fun i => Request.mk mode_list (i + 1) size)
    Except.ok (trace0 ++ reqs, (reqs.map (fun r => (server r).dataList)).flatten)

/-- The `mode_list` computation at the top of `_get_activities_inner`:
`""` when `activity_types is None`, else the comma-joined codes. -/
def mode_list_of : Option (List Nat) → String
  | none => ""
  | some ts => String.intercalate "," (ts.map toString)

/-- Method `CorosDataExtractor._get_activities_inner`:

* `mode_list` is `""` when `activity_types is None`, else the
  comma-joined codes;
* `limit is None` (discovery mode) first issues a probe with
  `size = 1, pageNumber = 1`, reads `count` from its response, and
  resets `limit` to `ACTIVITY_PAGINATION_LIMIT`;
* otherwise `total_activities = limit`;
* then the paging loop of `pages_phase` runs. -/
def get_activities_inner {ε : Type} (server : Request → Response ε)
    (limit : Option Nat) (activity_types : Option (List Nat)) :
    Except PyErr (List Request × List ε) :=
  let mode_list := mode_list_of activity_types
  match limit with
  | none =>
    let probe : Request := ⟨mode_list, 1, 1⟩
    let res := server probe
    pages_phase server mode_list ACTIVITY_PAGINATION_LIMIT res.count [probe]
  | some l => pages_phase server mode_list l l []

/-- Method `CorosDataExtractor.get_activities`: opens a session and delegates
to `_get_activities_inner`.  Its Python signature defaults are
`limit = DEFAULT_ACTIVITY_LIMIT` and `activity_types = None`. -/
def get_activities {ε : Type} (server : Request → Response ε)
    (limit : Option Nat) (activity_types : Option (List Nat)) :
    Except PyErr (List Request × List ε) :=
  get_activities_inner server limit activity_types

/-- The listing call made by `_extract_data_inner`:
`self.get_activities()` with no arguments, so both parameter defaults
apply (`limit = DEFAULT_ACTIVITY_LIMIT`, `activity_types = None`). -/
def extract_data_listing {ε : Type} (server : Request → Response ε) :
    Except PyErr (List Request × List ε) :=
  get_activities server (some DEFAULT_ACTIVITY_LIMIT) none

/-! ## Detail fetch with bounded retry (`get_raw_activity_data`) -/

/-- The outcome of one call to `_get_raw_activity_data_inner`: either a
raised exception (transport/HTTP error) or a JSON payload. -/
inductive AttemptOutcome where
  | exn
  | payload (p : DetailPayload)
deriving DecidableEq

/-- The `RuntimeError` raised on retry exhaustion.  The source message is
`f"REST API call to {ACTIVITY_DETAILS_URL=} failed after {MAX_TRIES} attempts."`;
it is modelled by its two data: the endpoint named and the attempt count
named (the module constant `MAX_TRIES`, not the `max_tries` parameter). -/
inductive RetryErr where
  | runtimeError (endpoint : String) (attempts : Nat)
deriving DecidableEq

/-- Observable result of `get_raw_activity_data`: how many attempts were
made, how many times it slept `wait_between_retries`, and the returned
payload or raised error. -/
structure RetryTrace where
  attempts : Nat
  sleeps : Nat
  outcome : Except RetryErr DetailPayload

/-- The loop body of `get_raw_activity_data`, iterating over the
remaining values of `retries_left` (the Python
`range(max_tries - 1, -1, -1)`).  `fetch n` is the outcome of the n-th
call (1-based) to `_get_raw_activity_data_inner`:

    try: resp_json = inner()
    except Exception: log
    else:
        if valid(resp_json): return resp_json
        log
    if retries_left: sleep(wait_between_retries)

falling out of the loop raises the `RuntimeError`. -/
def retry_loop (fetch : Nat → AttemptOutcome) :
    List Nat → Nat → Nat → RetryTrace
  | [], attempts, sleeps =>
    ⟨attempts, sleeps,
      Except.error (RetryErr.runtimeError ACTIVITY_DETAILS_URL MAX_TRIES)⟩
  | retries_left :: rest, attempts, sleeps =>
    match fetch (attempts + 1) with
    | AttemptOutcome.payload p =>
      if valid_raw_activity_data p then ⟨attempts + 1, sleeps, Except.ok p⟩
      else if retries_left ≠ 0 then retry_loop fetch rest (attempts + 1) (sleeps + 1)
      else retry_loop fetch rest (attempts + 1) sleeps
    | AttemptOutcome.exn =>
      if retries_left ≠ 0 then retry_loop fetch rest (attempts + 1) (sleeps + 1)
      else retry_loop fetch rest (attempts + 1) sleeps

/-- Python `range(max_tries - 1, -1, -1)`: the descending list
`[max_tries - 1, ..., 1, 0]`. -/
def desc_range (max_tries : Nat) : List Nat := (List.range max_tries).reverse

/-- Method `CorosDataExtractor.get_raw_activity_data` with the transport
abstracted: attempt at most `max_tries` fetches, sleeping between failed
attempts except after the last. -/
def get_raw_activity_data (fetch : Nat → AttemptOutcome) (max_tries : Nat) :
    RetryTrace :=
  retry_loop fetch (desc_range max_tries) 0 0

/-! ## Extraction orchestrator (`_extract_data_inner`) -/

/-- The per-activity outcome of `get_raw_activity_data` as seen by the
orchestrator: the exceptions its `except` clause catches
(`requests.RequestException`, `RuntimeError`) or a payload. -/
inductive FetchResult where
  | requestException
  | runtimeError
  | ok (p : DetailPayload)
deriving DecidableEq

/-- Which normalization exceptions the orchestrator's second
`try`/`except` catches: only `KeyError`. -/
def caught_by_orchestrator : PyErr → Bool
  | PyErr.keyError _ => true
  | _ => false

/-- The per-activity loop of `_extract_data_inner` over the fetch
results, accumulating `self.activities`:

* a fetch exception is caught and logged, the loop continues;
* a `KeyError` from the normalization block is caught and logged, the
  loop continues;
* any other normalization exception (e.g. pydantic `ValidationError`)
  propagates, aborting the run;
* on success the activity is appended. -/
def extract_loop : List FetchResult → List TrainActivity →
    Except PyErr (List TrainActivity)
  | [], acc => Except.ok acc
  | r :: rest, acc =>
    match r with
    | FetchResult.requestException => extract_loop rest acc
    | FetchResult.runtimeError => extract_loop rest acc
    | FetchResult.ok p =>
      match normalize_activity p with
      | Except.ok ta => extract_loop rest (acc ++ [ta])
      | Except.error e =>
        if caught_by_orchestrator e then extract_loop rest acc
        else Except.error e

/-- Method `_extract_data_inner`, parametrized by the per-activity fetch
results in listing order, returning the final `self.activities`. -/
def extract_data_inner (fetch_results : List FetchResult) :
    Except PyErr (List TrainActivity) :=
  extract_loop fetch_results []

/-- The activities that normalize successfully, in encounter order. -/
def successes (fetch_results : List FetchResult) : List TrainActivity :=
  fetch_results.filterMap
    (fun r => match r with
      | FetchResult.ok p => (normalize_activity p).toOption
      | _ => none)

/-- A fetch result that does not abort the run: either a caught fetch
exception, a successful normalization, or a caught (`KeyError`)
normalization failure. -/
def no_uncaught_error : FetchResult → Bool
  | FetchResult.requestException => true
  | FetchResult.runtimeError => true
  | FetchResult.ok p =>
    match normalize_activity p with
    | Except.ok _ => true
    | Except.error e => caught_by_orchestrator e

/-! ## Concrete fixtures used by witnesses and counterexamples -/

instance {ε α : Type} [DecidableEq ε] [DecidableEq α] :
    DecidableEq (Except ε α) := fun x y =>
  match x, y with
  | Except.ok a, Except.ok b => decidable_of_iff (a = b) (by simp)
  | Except.ok _, Except.error _ => isFalse (by simp)
  | Except.error _, Except.ok _ => isFalse (by simp)
  | Except.error e, Except.error f => decidable_of_iff (e = f) (by simp)

/-- A listing server reporting 450 total activities.  Each page response
carries a single entry `pageNumber * 1000 + size` so the returned
`dataList` records which requests produced it. -/
def server450 : Request → Response Nat :=
  fun r => ⟨450, [r.pageNumber * 1000 + r.size]⟩

/-- A raw summary mapping with every declared field present. -/
def rawSummaryComplete : RawSummary :=
  ⟨some 0, some 0, some 0, some 0, some 0, some 0, some 0, some 0, some 0,
    some 0, some 0, some 0, some 0, some 0, some 0, some 0, some 0, some 0,
    some 0, some 0, some "morning run", some 0, some 0, some 0, some 0,
    some 0, some 0, some 0⟩

/-- A raw summary mapping whose required `name` field is absent. -/
def rawSummaryMissingName : RawSummary :=
  ⟨some 0, some 0, some 0, some 0, some 0, some 0, some 0, some 0, some 0,
    some 0, some 0, some 0, some 0, some 0, some 0, some 0, some 0, some 0,
    some 0, some 0, none, some 0, some 0, some 0, some 0, some 0, some 0,
    some 0⟩

/-- A detail payload that passes `valid_raw_activity_data` and
normalizes successfully. -/
def goodDetailPayload : DetailPayload :=
  ⟨some ⟨some rawSummaryComplete, some [], some []⟩⟩

/-- A detail payload with no `data` envelope at all: it fails
`valid_raw_activity_data`. -/
def invalidDetailPayload : DetailPayload := ⟨none⟩

/-- A detail payload whose envelope lacks the `summary` key: building
models raises `KeyError("summary")`. -/
def missingSummaryKeyPayload : DetailPayload :=
  ⟨some ⟨none, some [], some []⟩⟩

/-- A detail payload whose summary is present but misses a required
field: `Summary(**data)` raises a pydantic `ValidationError`. -/
def invalidSummaryPayload : DetailPayload :=
  ⟨some ⟨some rawSummaryMissingName, some [], some []⟩⟩

/-- A fetch function whose first two calls return an invalid payload and
whose third call returns `goodDetailPayload`. -/
def failTwiceFetch : Nat → AttemptOutcome :=
  fun n => if n = 3 then AttemptOutcome.payload goodDetailPayload
    else AttemptOutcome.payload invalidDetailPayload

/-- A fetch function every call of which raises a transport error. -/
def alwaysExnFetch : Nat → AttemptOutcome := fun _ => AttemptOutcome.exn

/-- Attempt `n` counts as failed: it either raises a transport error or
returns a payload rejected by `valid_raw_activity_data`. -/
def attempt_fails (fetch : Nat → AttemptOutcome) (n : Nat) : Bool :=
  match fetch n with
  | AttemptOutcome.exn => true
  | AttemptOutcome.payload p => !valid_raw_activity_data p

/-- The fetch results of a three-activity run: the first normalizes, the
second hits a transport error, the third lacks the `summary` key. -/
def threeActivityRun : List FetchResult :=
  [FetchResult.ok goodDetailPayload, FetchResult.requestException,
    FetchResult.ok missingSummaryKeyPayload]

/-! ## Helper lemmas -/

/-- The raw ceiling division `(a + b - 1) / b` agrees with the rational
ceiling `⌈a / b⌉₊` whenever `b > 0`. -/
theorem ceil_div_eq_rat_ceil (a b : Nat) (hb : 0 < b) :
    ceil_div a b = ⌈(a : ℚ) / b⌉₊ := by
  rcases Nat.eq_zero_or_pos a with ha | ha
  · subst ha
    have h1 : ceil_div 0 b = 0 := by
      unfold ceil_div
      exact Nat.div_eq_of_lt (by omega)
    rw [h1]
    simp
  · have hq := Nat.div_add_mod (a + b - 1) b
    have hr : (a + b - 1) % b < b := Nat.mod_lt _ hb
    obtain ⟨q, hqe⟩ : ∃ q, (a + b - 1) / b = q + 1 := by
      refine ⟨(a + b - 1) / b - 1, ?_⟩
      rcases Nat.eq_zero_or_pos ((a + b - 1) / b) with h0 | h1
      · rw [h0] at hq
        omega
      · omega
    have hmul : b * (q + 1) = b * q + b := Nat.mul_succ b q
    rw [hqe] at hq
    have hub : a ≤ b * q + b := by omega
    have hlb : b * q < a := by omega
    have hbq : (0 : ℚ) < (b : ℚ) := by exact_mod_cast hb
    unfold ceil_div
    rw [hqe]
    symm
    rw [Nat.ceil_eq_iff (by omega)]
    have hlb' : q * b < a := by rw [Nat.mul_comm]; exact hlb
    have hub' : a ≤ (q + 1) * b := by
      rw [Nat.mul_comm, Nat.mul_succ]; exact hub
    constructor
    · rw [lt_div_iff₀ hbq]
      have hc : (q : ℚ) * b < a := by exact_mod_cast hlb'
      simpa using hc
    · rw [div_le_iff₀ hbq]
      have hc : (a : ℚ) ≤ ((q + 1 : ℕ) : ℚ) * (b : ℚ) := by exact_mod_cast hub'
      simpa using hc

/-- Lemma `ceil_div n n = 1` for positive `n`: the page count of the
explicit-limit path is always one. -/
theorem ceil_div_self_eq_one (n : Nat) (h : 0 < n) : ceil_div n n = 1 := by
  unfold ceil_div
  exact Nat.div_eq_of_lt_le (by omega) (by omega)

/-- The explicit-limit path of the lister: with `limit = l > 0` it
issues exactly one page request of size `min l ACTIVITY_PAGINATION_LIMIT`
and returns that page's entries. -/
theorem get_activities_inner_pos_limit {ε : Type} (server : Request → Response ε)
    (l : Nat) (h : 0 < l) (types : Option (List Nat)) :
    get_activities_inner server (some l) types =
      Except.ok ([⟨mode_list_of types, 1, min l ACTIVITY_PAGINATION_LIMIT⟩],
        (server ⟨mode_list_of types, 1, min l ACTIVITY_PAGINATION_LIMIT⟩).dataList) := by
  have h0 : ¬ (l = 0) := by omega
  simp [get_activities_inner, pages_phase, h0, ceil_div_self_eq_one l h,
    show List.range 1 = [0] from rfl]

/-- One failed, non-final attempt of the retry loop: the attempt counter
and the sleep counter both advance. -/
theorem retry_loop_failed_step (fetch : Nat → AttemptOutcome)
    (rl att slp : Nat) (rest : List Nat)
    (h : attempt_fails fetch (att + 1) = true) (hrl : rl ≠ 0) :
    retry_loop fetch (rl :: rest) att slp =
      retry_loop fetch rest (att + 1) (slp + 1) := by
  unfold attempt_fails at h
  cases hf : fetch (att + 1) with
  | exn => simp [retry_loop, hf, hrl]
  | payload p =>
    rw [hf] at h
    rw [Bool.not_eq_true'] at h
    simp [retry_loop, hf, h, hrl]

/-- The final failed attempt of the retry loop: the attempt counter
advances but no sleep happens. -/
theorem retry_loop_failed_last (fetch : Nat → AttemptOutcome)
    (att slp : Nat) (rest : List Nat)
    (h : attempt_fails fetch (att + 1) = true) :
    retry_loop fetch (0 :: rest) att slp =
      retry_loop fetch rest (att + 1) slp := by
  unfold attempt_fails at h
  cases hf : fetch (att + 1) with
  | exn => simp [retry_loop, hf]
  | payload p =>
    rw [hf] at h
    rw [Bool.not_eq_true'] at h
    simp [retry_loop, hf, h]

/-- The lap-accumulating fold of `get_laps_data`, characterized for an
arbitrary accumulator. -/
theorem get_laps_data_foldl (data : List LapGroup) (acc : List Lap) :
    data.foldl
        (fun laps item =>
          if item.type = LapType.RUNNING then
            laps ++ item.lapItemList.map Lap.ofRaw
          else laps)
        acc =
      acc ++ ((data.filter (fun g => g.type == LapType.RUNNING)).map
        (fun g => g.lapItemList.map Lap.ofRaw)).flatten := by
  induction data generalizing acc with
  | nil => simp
  | cons g rest ih =>
    by_cases hg : g.type = LapType.RUNNING
    · simp [hg, ih, List.append_assoc]
    · simp [hg, ih]

/-- The sample-accumulating fold of `get_activity_data`, characterized
for an arbitrary accumulator. -/
theorem get_activity_data_foldl (data : List RawSample) (acc : Frequencies) :
    data.foldl
        (fun freq item =>
          ⟨freq.cadence ++ [item.cadence.getD 0],
            freq.distance ++ [item.distance.getD 0],
            freq.heart ++ [item.heart.getD 0],
            freq.heartLevel ++ [item.heartLevel.getD 0],
            freq.timestamp ++ [item.timestamp.getD 0]⟩)
        acc =
      ⟨acc.cadence ++ data.map (fun i => i.cadence.getD 0),
        acc.distance ++ data.map (fun i => i.distance.getD 0),
        acc.heart ++ data.map (fun i => i.heart.getD 0),
        acc.heartLevel ++ data.map (fun i => i.heartLevel.getD 0),
        acc.timestamp ++ data.map (fun i => i.timestamp.getD 0)⟩ := by
  induction data generalizing acc with
  | nil => simp
  | cons s rest ih => simp [ih, List.append_assoc]

/-- Unfolding lemma: a successfully normalized head contributes its
activity to `successes`. -/
theorem successes_cons_ok (p : DetailPayload) (ta : TrainActivity)
    (hn : normalize_activity p = Except.ok ta) (rest : List FetchResult) :
    successes (FetchResult.ok p :: rest) = ta :: successes rest := by
  simp [successes, List.filterMap_cons, hn, Except.toOption]

/-- Unfolding lemma: a head whose normalization fails contributes
nothing to `successes`. -/
theorem successes_cons_error (p : DetailPayload) (e : PyErr)
    (hn : normalize_activity p = Except.error e) (rest : List FetchResult) :
    successes (FetchResult.ok p :: rest) = successes rest := by
  simp [successes, List.filterMap_cons, hn, Except.toOption]

/-- When no fetch result triggers an uncaught exception, the
orchestrator loop appends exactly the successfully normalized
activities, in order. -/
theorem extract_loop_all_caught (rs : List FetchResult)
    (acc : List TrainActivity) (h : rs.all no_uncaught_error = true) :
    extract_loop rs acc = Except.ok (acc ++ successes rs) := by
  induction rs generalizing acc with
  | nil => simp [extract_loop, successes]
  | cons r rest ih =>
    rw [List.all_cons, Bool.and_eq_true] at h
    obtain ⟨hr, hrest⟩ := h
    cases r with
    | requestException => simp [extract_loop, successes, ih acc hrest]
    | runtimeError => simp [extract_loop, successes, ih acc hrest]
    | ok p =>
      cases hn : normalize_activity p with
      | ok ta =>
        rw [successes_cons_ok p ta hn rest]
        simp [extract_loop, hn, ih (acc ++ [ta]) hrest, List.append_assoc]
      | error e =>
        have hc : caught_by_orchestrator e = true := by
          simpa [no_uncaught_error, hn] using hr
        rw [successes_cons_error p e hn rest]
        simp [extract_loop, hn, hc, ih acc hrest]

/-- If every fetch result of a prefix is benign and the final payload
normalizes with an uncaught exception, the whole loop aborts with that
exception. -/
theorem extract_loop_uncaught_aborts (pre : List FetchResult)
    (p : DetailPayload) (e : PyErr) (acc : List TrainActivity)
    (hpre : pre.all no_uncaught_error = true)
    (hn : normalize_activity p = Except.error e)
    (hc : caught_by_orchestrator e = false) :
    extract_loop (pre ++ [FetchResult.ok p]) acc = Except.error e := by
  induction pre generalizing acc with
  | nil => simp [extract_loop, hn, hc]
  | cons r rest ih =>
    rw [List.all_cons, Bool.and_eq_true] at hpre
    obtain ⟨hr, hrest⟩ := hpre
    cases r with
    | requestException => simpa [extract_loop] using ih acc hrest
    | runtimeError => simpa [extract_loop] using ih acc hrest
    | ok q =>
      cases hq : normalize_activity q with
      | ok ta => simpa [extract_loop, hq] using ih (acc ++ [ta]) hrest
      | error f =>
        have hcf : caught_by_orchestrator f = true := by
          simpa [no_uncaught_error, hq] using hr
        simpa [extract_loop, hq, hcf] using ih acc hrest

/-! ## Claim theorems -/

/-- Claim C1: for every raw lap-group list, `get_laps_data` returns
exactly the laps of the groups whose type equals the running lap type,
flattened in order (relative order preserved across groups and within a
group), groups of every other type contributing nothing; in particular
on `[(RUNNING, [A, B]), (BIKE_RIDE, [C])]` it yields exactly the laps
built from `A` and `B`, in that order. -/
theorem C1_get_laps_data_running_only (data : List LapGroup) (A B C : RawLap) :
    get_laps_data data =
      ((data.filter (fun g => g.type == LapType.RUNNING)).map
        (fun g => g.lapItemList.map Lap.ofRaw)).flatten ∧
    get_laps_data
        [⟨LapType.RUNNING, [A, B]⟩, ⟨LapType.BIKE_RIDE, [C]⟩] =
      [Lap.ofRaw A, Lap.ofRaw B] := by
  constructor
  · simpa using get_laps_data_foldl data []
  · rfl

/-- Counterexample to claim C2: `extract_data` calls the lister with no
arguments, so `limit` defaults to `DEFAULT_ACTIVITY_LIMIT = 200`, which
is NOT discovery mode: against a server reporting 450 activities the
orchestrator's listing issues a single size-200 page request and no
size-1 count probe, while discovery mode issues the probe plus three
page requests — the two runs differ. -/
theorem C2_counterexample :
    extract_data_listing server450 = Except.ok ([⟨"", 1, 200⟩], [1200]) ∧
    get_activities_inner server450 none none =
      Except.ok ([⟨"", 1, 1⟩, ⟨"", 1, 200⟩, ⟨"", 2, 200⟩, ⟨"", 3, 200⟩],
        [1200, 2200, 3200]) ∧
    extract_data_listing server450 ≠ get_activities_inner server450 none none := by
  refine ⟨rfl, rfl, ?_⟩
  decide

/-- Claim C2 (amended): in every extraction run the orchestrator calls
the activity lister with no explicit limit argument and no type filter,
so the default `limit = DEFAULT_ACTIVITY_LIMIT = 200` applies and the
lister runs in the explicit-limit (non-discovery) mode, issuing exactly
one page request of size 200 with an empty `modeList`. -/
theorem C2_extract_data_listing_defaults {ε : Type}
    (server : Request → Response ε) :
    extract_data_listing server =
      Except.ok ([⟨"", 1, 200⟩], (server ⟨"", 1, 200⟩).dataList) := by
  have h := get_activities_inner_pos_limit server 200 (by omega) none
  simpa [extract_data_listing, get_activities, DEFAULT_ACTIVITY_LIMIT,
    ACTIVITY_PAGINATION_LIMIT, mode_list_of] using h

/-- Counterexample to claim C3: with explicit `limit = 450` the lister
does NOT paginate at 200 per page until 450 entries are reached — the
page count is `ceil(limit / limit) = 1`, so it issues a single request
(of size 200), not the `ceil(450 / 200) = 3` requests the claim's
reading requires. -/
theorem C3_counterexample :
    get_activities_inner server450 (some 450) none =
      Except.ok ([⟨"", 1, 200⟩], [1200]) ∧
    ⌈((450 : ℕ) : ℚ) / ((200 : ℕ) : ℚ)⌉₊ = 3 ∧
    ([(⟨"", 1, 200⟩ : Request)] : List Request).length ≠ 3 := by
  refine ⟨rfl, ?_, by decide⟩
  rw [← ceil_div_eq_rat_ceil 450 200 (by omega)]
  rfl

/-- Claim C3 (amended): for every explicitly provided positive limit the
lister uses page size `min(limit, 200)` and issues
`ceil(limit / limit) = 1` pages — it is single-page for EVERY positive
limit, including limits above 200, where it still issues exactly one
request of size 200 and therefore fetches at most 200 entries. -/
theorem C3_explicit_limit_single_page {ε : Type}
    (server : Request → Response ε) (limit : Nat) (h : 0 < limit) :
    get_activities_inner server (some limit) none =
      Except.ok ([⟨"", 1, min limit ACTIVITY_PAGINATION_LIMIT⟩],
        (server ⟨"", 1, min limit ACTIVITY_PAGINATION_LIMIT⟩).dataList) ∧
    ceil_div limit limit = 1 := by
  have h1 := get_activities_inner_pos_limit server limit h none
  rw [show mode_list_of none = "" from rfl] at h1
  exact ⟨h1, ceil_div_self_eq_one limit h⟩

/-- Witness for C3 (amended), at `limit = 450`. -/
theorem C3_explicit_limit_single_page_witness :
    0 < 450 ∧
    get_activities_inner server450 (some 450) none =
      Except.ok ([⟨"", 1, 200⟩], [1200]) := by
  refine ⟨by decide, ?_⟩
  have h := (C3_explicit_limit_single_page server450 450 (by decide)).1
  have e : min 450 ACTIVITY_PAGINATION_LIMIT = 200 := rfl
  rw [e] at h
  exact h.trans (by rfl)

/-- Claim C4: in discovery mode (`limit` omitted) the lister first
issues one query of page size 1, reads the server-reported `count`, then
issues exactly `ceil(count / 200)` page requests of size 200 with page
numbers `1, 2, ...` in order, concatenating each page's `dataList` in
request order; for `count = 450` that is exactly 3 page requests. -/
theorem C4_discovery_pagination {ε : Type} (server : Request → Response ε)
    (total : Nat) (h : (server ⟨"", 1, 1⟩).count = total) :
    get_activities_inner server none none =
      Except.ok
        (⟨"", 1, 1⟩ :: (List.range (ceil_div total 200)).map
            (fun i => ⟨"", i + 1, 200⟩),
          ((List.range (ceil_div total 200)).map
            (fun i => (server ⟨"", i + 1, 200⟩).dataList)).flatten) ∧
    ceil_div total 200 = ⌈(total : ℚ) / 200⌉₊ ∧
    (total = 450 →
      (List.range (ceil_div total 200)).map
          (fun i => (⟨"", i + 1, 200⟩ : Request)) =
        [⟨"", 1, 200⟩, ⟨"", 2, 200⟩, ⟨"", 3, 200⟩]) := by
  refine ⟨?_, ceil_div_eq_rat_ceil total 200 (by omega), ?_⟩
  · simp only [get_activities_inner, pages_phase, mode_list_of,
      ACTIVITY_PAGINATION_LIMIT, h]
    norm_num [List.map_map]
    rfl
  · intro ht
    subst ht
    rfl

/-- Witness for C4 against `server450` (which reports `count = 450`). -/
theorem C4_discovery_pagination_witness :
    (server450 ⟨"", 1, 1⟩).count = 450 ∧
    get_activities_inner server450 none none =
      Except.ok ([⟨"", 1, 1⟩, ⟨"", 1, 200⟩, ⟨"", 2, 200⟩, ⟨"", 3, 200⟩],
        [1200, 2200, 3200]) := by
  refine ⟨rfl, ?_⟩
  have h := (C4_discovery_pagination server450 450 rfl).1
  rw [h]
  rfl

/-- Claim C5: with `max_tries = 3`, if the fetch fails validation on the
first two calls and the third call returns a valid payload, then
`get_raw_activity_data` returns the third call's payload, having made 3
attempts and slept exactly twice (after each failed attempt, never after
the last). -/
theorem C5_retry_third_success (fetch : Nat → AttemptOutcome)
    (p1 p2 p : DetailPayload)
    (h1 : fetch 1 = AttemptOutcome.payload p1)
    (hv1 : valid_raw_activity_data p1 = false)
    (h2 : fetch 2 = AttemptOutcome.payload p2)
    (hv2 : valid_raw_activity_data p2 = false)
    (h3 : fetch 3 = AttemptOutcome.payload p)
    (hv3 : valid_raw_activity_data p = true) :
    get_raw_activity_data fetch 3 = ⟨3, 2, Except.ok p⟩ := by
  have hd : desc_range 3 = [2, 1, 0] := rfl
  unfold get_raw_activity_data
  rw [hd]
  rw [retry_loop_failed_step fetch 2 0 0 [1, 0]
    (by simp [attempt_fails, h1, hv1]) (by decide)]
  rw [retry_loop_failed_step fetch 1 1 1 [0]
    (by simp [attempt_fails, h2, hv2]) (by decide)]
  simp [retry_loop, h3, hv3]

/-- Witness for C5: two invalid payloads then a valid one. -/
theorem C5_retry_third_success_witness :
    failTwiceFetch 1 = AttemptOutcome.payload invalidDetailPayload ∧
    valid_raw_activity_data invalidDetailPayload = false ∧
    failTwiceFetch 3 = AttemptOutcome.payload goodDetailPayload ∧
    valid_raw_activity_data goodDetailPayload = true ∧
    get_raw_activity_data failTwiceFetch 3 =
      ⟨3, 2, Except.ok goodDetailPayload⟩ :=
  ⟨rfl, rfl, rfl, rfl,
    C5_retry_third_success failTwiceFetch invalidDetailPayload
      invalidDetailPayload goodDetailPayload rfl rfl rfl rfl rfl rfl⟩

/-- Claim C6: with `max_tries = 3`, if every attempt fails (transport
error or validation failure), `get_raw_activity_data` makes exactly 3
attempts, sleeps exactly 2 times, and raises the retry-exhausted
`RuntimeError` naming the detail endpoint and the attempt count. -/
theorem C6_retry_exhaustion (fetch : Nat → AttemptOutcome)
    (h1 : attempt_fails fetch 1 = true)
    (h2 : attempt_fails fetch 2 = true)
    (h3 : attempt_fails fetch 3 = true) :
    get_raw_activity_data fetch 3 =
      ⟨3, 2, Except.error
        (RetryErr.runtimeError ACTIVITY_DETAILS_URL MAX_TRIES)⟩ := by
  have hd : desc_range 3 = [2, 1, 0] := rfl
  unfold get_raw_activity_data
  rw [hd]
  rw [retry_loop_failed_step fetch 2 0 0 [1, 0] h1 (by decide)]
  rw [retry_loop_failed_step fetch 1 1 1 [0] h2 (by decide)]
  rw [retry_loop_failed_last fetch 2 2 [] h3]
  rfl

/-- Witness for C6: every attempt raises a transport error. -/
theorem C6_retry_exhaustion_witness :
    attempt_fails alwaysExnFetch 1 = true ∧
    get_raw_activity_data alwaysExnFetch 3 =
      ⟨3, 2, Except.error
        (RetryErr.runtimeError ACTIVITY_DETAILS_URL MAX_TRIES)⟩ :=
  ⟨rfl, C6_retry_exhaustion alwaysExnFetch rfl rfl rfl⟩

/-- Counterexample to claim C7: a payload whose `summary` key is present
but misses a required field makes normalization fail with a pydantic
`ValidationError`, which `_extract_data_inner` does NOT catch (its
`except` clause catches only `KeyError`): the run aborts instead of
logging and continuing with the remaining activities. -/
theorem C7_counterexample :
    normalize_activity invalidSummaryPayload =
      Except.error PyErr.validationError ∧
    caught_by_orchestrator PyErr.validationError = false ∧
    extract_data_inner [FetchResult.ok invalidSummaryPayload] =
      Except.error PyErr.validationError ∧
    extract_data_inner [FetchResult.ok invalidSummaryPayload] ≠
      Except.ok (successes [FetchResult.ok invalidSummaryPayload]) := by
  refine ⟨rfl, rfl, rfl, ?_⟩
  have h : extract_data_inner [FetchResult.ok invalidSummaryPayload] =
      Except.error PyErr.validationError := rfl
  rw [h]
  simp

/-- Claim C7 (amended): during an extraction run, per-activity fetch
errors and missing-key (`KeyError`) normalization failures are logged
and skipped, and the resulting collection contains exactly the
successfully normalized activities in encounter order; but a
normalization failure from a missing required field inside the summary
(pydantic `ValidationError`) is not caught and aborts the run. -/
theorem C7_partial_failure (rs : List FetchResult)
    (h : rs.all no_uncaught_error = true) :
    extract_data_inner rs = Except.ok (successes rs) ∧
    ∀ (p : DetailPayload) (e : PyErr),
      normalize_activity p = Except.error e →
      caught_by_orchestrator e = false →
      extract_data_inner (rs ++ [FetchResult.ok p]) = Except.error e := by
  constructor
  · simpa [extract_data_inner] using extract_loop_all_caught rs [] h
  · intro p e hn hc
    exact extract_loop_uncaught_aborts rs p e [] h hn hc

/-- Witness for C7 (amended): a run of three activities — one good, one
transport failure, one missing `summary` key — yields exactly the one
normalized activity; appending an uncaught-validation payload aborts. -/
theorem C7_partial_failure_witness :
    threeActivityRun.all no_uncaught_error = true ∧
    extract_data_inner threeActivityRun =
      Except.ok (successes threeActivityRun) ∧
    (successes threeActivityRun).length = 1 ∧
    extract_data_inner
        (threeActivityRun ++ [FetchResult.ok invalidSummaryPayload]) =
      Except.error PyErr.validationError := by
  have h := C7_partial_failure threeActivityRun (by rfl)
  exact ⟨rfl, h.1, rfl,
    h.2 invalidSummaryPayload PyErr.validationError rfl rfl⟩

/-- Claim C8: for every raw sample list, `get_activity_data` returns a
`Frequencies` whose five sequences equal the per-field projections of
the input (hence all have length exactly the input length and preserve
input order), with 0 substituted for any absent per-sample field; the
spec's example input produces exactly the expected record. -/
theorem C8_frequencies_lengths (data : List RawSample) :
    get_activity_data data =
      ⟨data.map (fun i => i.cadence.getD 0),
        data.map (fun i => i.distance.getD 0),
        data.map (fun i => i.heart.getD 0),
        data.map (fun i => i.heartLevel.getD 0),
        data.map (fun i => i.timestamp.getD 0)⟩ ∧
    (get_activity_data data).cadence.length = data.length ∧
    (get_activity_data data).distance.length = data.length ∧
    (get_activity_data data).heart.length = data.length ∧
    (get_activity_data data).heartLevel.length = data.length ∧
    (get_activity_data data).timestamp.length = data.length ∧
    get_activity_data [⟨some 5, none, none, none, none⟩] =
      ⟨[5], [0], [0], [0], [0]⟩ := by
  have h : get_activity_data data =
      ⟨data.map (fun i => i.cadence.getD 0),
        data.map (fun i => i.distance.getD 0),
        data.map (fun i => i.heart.getD 0),
        data.map (fun i => i.heartLevel.getD 0),
        data.map (fun i => i.timestamp.getD 0)⟩ := by
    simpa [get_activity_data, Frequencies.empty]
      using get_activity_data_foldl data Frequencies.empty
  refine ⟨h, ?_, ?_, ?_, ?_, ?_, rfl⟩ <;> rw [h] <;> simp

/-- Claim C9: the timestamp decoder maps a raw integer (hundredths of a
second since the Unix epoch) to the instant `epoch + raw / 100` seconds,
before any time-zone conversion (`astimezone` never moves the instant);
raw 0 decodes to the epoch instant and raw 100 to exactly 1 second after
it. -/
theorem C9_timestamp_decode (value : Int) (dt : AwareDatetime) (z : String) :
    convert_timestamp_to_datetime value =
      astimezone (addSeconds epochUTC ((value : ℚ) / 100))
        "America/New_York" ∧
    (addSeconds epochUTC ((value : ℚ) / 100)).instant =
      epochUTC.instant + (value : ℚ) / 100 ∧
    (astimezone dt z).instant = dt.instant ∧
    (convert_timestamp_to_datetime value).instant = (value : ℚ) / 100 ∧
    (convert_timestamp_to_datetime 0).instant = 0 ∧
    (convert_timestamp_to_datetime 100).instant = 1 := by
  refine ⟨rfl, rfl, rfl, ?_, ?_, ?_⟩
  · simp [convert_timestamp_to_datetime, astimezone, addSeconds, epochUTC,
      AwareDatetime.instant]
  · simp [convert_timestamp_to_datetime, astimezone, addSeconds, epochUTC,
      AwareDatetime.instant]
  · simp [convert_timestamp_to_datetime, astimezone, addSeconds, epochUTC,
      AwareDatetime.instant]

/-- Claim C10: calling the lister with an explicit limit of 0 reaches
`num_pages = math.ceil(total_activities / limit)` with
`total_activities = limit = 0` and raises `ZeroDivisionError` instead of
returning an empty listing; the division is unguarded, so the call
succeeds only under the precondition `limit ≠ 0`. -/
theorem C10_zero_limit_division_by_zero {ε : Type}
    (server : Request → Response ε) (types : Option (List Nat))
    (limit : Nat) (h : limit ≠ 0) :
    get_activities_inner server (some 0) types =
      Except.error PyErr.zeroDivisionError ∧
    ∃ out, get_activities_inner server (some limit) types = Except.ok out := by
  constructor
  · rfl
  · exact ⟨_, get_activities_inner_pos_limit server limit (by omega) types⟩

/-- Witness for C10 at `limit = 1` and no type filter. -/
theorem C10_zero_limit_division_by_zero_witness :
    (1 : Nat) ≠ 0 ∧
    get_activities_inner server450 (some 0) none =
      Except.error PyErr.zeroDivisionError :=
  ⟨by decide,
    (C10_zero_limit_division_by_zero server450 none 1 (by decide)).1⟩

end Coros
